import Mathlib

/-!
Verification of the multi-provider AI call orchestration layer of the
Tars-Agent repository (`src/tars-pc-agent/src/shared/tarsClient.js`).

The embedding models, faithfully to the JavaScript source:
  * the per-provider health record created in `initializeProviders` and
    mutated in `updateProviderHealth` (JS `Map` modelled as a function
    `String → Option Health`; `Date.now()` timestamps passed explicitly);
  * the eligibility check `isProviderHealthy`;
  * the failover loop `callWithFallback` (provider network calls are
    external I/O, modelled by an environment `env : Nat → AttemptOutcome`
    giving the outcome and duration of the i-th actual attempt);
  * the client facade `TarsClient.callModel`, which converts the aggregate
    failure thrown by `callWithFallback` into a structured result;
  * the `ProviderManager` constructor (configuration handling).
-/

namespace TarsVerify

/-- Provider health status: the three string values `'unknown'`,
`'healthy'`, `'error'` used in `tarsClient.js`. -/
inductive HStatus where
  | unknown
  | healthy
  | error
  deriving DecidableEq, Repr

/-- One provider health record: the object created in
`initializeProviders` (`{status: 'unknown', lastCheck: null,
responseTime: null, errorCount: 0}`) and mutated by
`updateProviderHealth`.  Timestamps and durations are epoch milliseconds
as natural numbers; `null` fields are `none`. -/
structure Health where
  status : HStatus
  lastCheck : Option Nat
  responseTime : Option Nat
  errorCount : Nat
  deriving DecidableEq, Repr

/-- The `providerHealth` JS `Map`, modelled as a function from provider
key to an optional record (`Map.get` returning `undefined` is `none`). -/
abbrev HealthMap : Type := String → Option Health

/-- The record a provider starts with when registered
(`initializeProviders`, lines 106-111). -/
def initHealth : Health :=
  { status := HStatus.unknown, lastCheck := none, responseTime := none, errorCount := 0 }

/-- `const maxErrorCount = 5` (line 157). -/
def maxErrorCount : Nat := 5

/-- `const healthCheckTimeout = 5 * 60 * 1000` (line 158). -/
def healthCheckTimeout : Nat := 5 * 60 * 1000

/-- `ProviderManager.updateProviderHealth(providerKey, status, responseTime = null)`
(lines 165-182).  Mirrors the JS body exactly:
`const health = this.providerHealth.get(providerKey) || {}` (missing
record defaults: `errorCount || 0` reads `0`, other fields `none`);
`health.status = status; health.lastCheck = Date.now()`;
`if (responseTime) health.responseTime = responseTime` (JS truthiness:
`null` and `0` are both falsy, so a zero duration is NOT stored);
`if (status === 'error') errorCount++ else if (status === 'healthy') errorCount = 0`.
`now` stands for the `Date.now()` call. -/
def updateProviderHealth (m : HealthMap) (providerKey : String) (status : HStatus)
    (now : Nat) (responseTime : Option Nat) : HealthMap :=
  let health := (m providerKey).getD
    { status := HStatus.unknown, lastCheck := none, responseTime := none, errorCount := 0 }
  let health := { health with status := status, lastCheck := some now }
  let health :=
    match responseTime with
    | some rt => if rt = 0 then health else { health with responseTime := some rt }
    | none => health
  let health :=
    if status = HStatus.error then { health with errorCount := health.errorCount + 1 }
    else if status = HStatus.healthy then { health with errorCount := 0 }
    else health
  fun k => if k = providerKey then some health else m k

/-- `ProviderManager.isProviderHealthy(providerKey)` (lines 153-163).
Returns `false` when no record exists; otherwise
`health.status === 'healthy' || (health.status === 'unknown' && health.errorCount < maxErrorCount)
|| (Date.now() - (health.lastCheck || 0)) > healthCheckTimeout`.
The subtraction is over `Int`, as JS numbers can go negative. -/
def isProviderHealthy (m : HealthMap) (providerKey : String) (now : Nat) : Bool :=
  match m providerKey with
  | none => false
  | some h =>
      decide (h.status = HStatus.healthy
        ∨ (h.status = HStatus.unknown ∧ h.errorCount < maxErrorCount)
        ∨ ((now : Int) - ((h.lastCheck.getD 0 : Nat) : Int) > (healthCheckTimeout : Int)))

/-- Outcome of one actual provider attempt (the external network call
`provider.call(prompt, content, options)` inside `callWithFallback`):
either a completion (`text`, token usage, and the elapsed wall time in
milliseconds) or a thrown error carrying its message and the elapsed
time. -/
inductive AttemptOutcome where
  | ok (text : String) (tokens : Nat) (duration : Nat)
  | fail (msg : String) (duration : Nat)
  deriving DecidableEq, Repr

/-- The value returned by a successful `callWithFallback`: the provider
result spread together with `provider: providerKey` and
`responseTime` (lines 137-141). -/
structure CallSuccess where
  text : String
  tokens : Nat
  provider : String
  responseTime : Nat
  deriving DecidableEq, Repr

/-- Result of running `callWithFallback`: the returned value or thrown
error, the final `providerHealth` map, the number of attempts consumed
from the environment, and the ordered list of attempts actually made
(each with the outcome the environment produced). -/
structure FallbackResult where
  result : Except String CallSuccess
  health : HealthMap
  nextIdx : Nat
  attempts : List (String × AttemptOutcome)

/-- The loop body of `ProviderManager.callWithFallback` (lines 117-151),
iterating over the remaining candidate keys.  For each key:
`if (!provider || !this.isProviderHealthy(providerKey)) continue;` —
modelled as the guard `registered providerKey && isProviderHealthy m providerKey now`;
on success `updateProviderHealth(key, 'healthy', responseTime)` and
return immediately; on failure record `lastError`,
`updateProviderHealth(key, 'error')`, and continue.  After the loop:
`throw new Error('All providers failed. Last error: ' + (lastError?.message || 'Unknown error'))`.
Wall-clock time advances by each attempt's duration. -/
def callWithFallbackAux (env : Nat → AttemptOutcome) (registered : String → Bool) :
    List String → HealthMap → Nat → Nat → Option String → FallbackResult
  | [], m, _now, idx, lastErr =>
    { result := Except.error ("All providers failed. Last error: " ++ lastErr.getD "Unknown error")
      health := m, nextIdx := idx, attempts := [] }
  | providerKey :: rest, m, now, idx, lastErr =>
    if registered providerKey && isProviderHealthy m providerKey now then
      match env idx with
      | AttemptOutcome.ok text tokens duration =>
        let responseTime := duration
        let m' := updateProviderHealth m providerKey HStatus.healthy (now + duration)
          (some responseTime)
        { result := Except.ok
            { text := text, tokens := tokens, provider := providerKey,
              responseTime := responseTime }
          health := m', nextIdx := idx + 1,
          attempts := [(providerKey, AttemptOutcome.ok text tokens duration)] }
      | AttemptOutcome.fail msg duration =>
        let m' := updateProviderHealth m providerKey HStatus.error (now + duration) none
        let r := callWithFallbackAux env registered rest m' (now + duration) (idx + 1) (some msg)
        { result := r.result, health := r.health, nextIdx := r.nextIdx,
          attempts := (providerKey, AttemptOutcome.fail msg duration) :: r.attempts }
    else
      callWithFallbackAux env registered rest m now idx lastErr

/-- `ProviderManager.callWithFallback`: the candidate list is
`[this.primaryProvider, ...this.fallbackProviders]` (line 118),
`lastError` starts `null`. -/
def callWithFallback (env : Nat → AttemptOutcome) (registered : String → Bool)
    (primaryProvider : String) (fallbackProviders : List String)
    (m : HealthMap) (now : Nat) : FallbackResult :=
  callWithFallbackAux env registered (primaryProvider :: fallbackProviders) m now 0 none

/-- The error message thrown by `AIProvider.call` on a failed network
call (line 272): it always begins with the provider's display name. -/
def providerErrorMessage (name msg : String) : String :=
  name ++ " API Error: " ++ msg

/-- The value `TarsClient.callModel` hands back to feature modules:
on success the provider result (`error` absent in JS, modelled `false`);
on a thrown aggregate failure the structured record of lines 21-26. -/
structure ModelCallResult where
  text : String
  total_tokens : Nat
  error : Bool
  provider : String
  deriving DecidableEq, Repr

/-- `TarsClient.callModel` (lines 11-28): runs `callWithFallback` and,
when it throws, catches the error and returns
`{text: 'Error: ' + message + '. Please check your API configuration.',
usage: {total_tokens: 0}, error: true, provider: 'none'}`.
A total function: no exception escapes to the caller. -/
def callModel (env : Nat → AttemptOutcome) (registered : String → Bool)
    (primaryProvider : String) (fallbackProviders : List String)
    (m : HealthMap) (now : Nat) : ModelCallResult × HealthMap :=
  let r := callWithFallback env registered primaryProvider fallbackProviders m now
  match r.result with
  | Except.ok s =>
    ({ text := s.text, total_tokens := s.tokens, error := false, provider := s.provider },
      r.health)
  | Except.error e =>
    ({ text := "Error: " ++ e ++ ". Please check your API configuration.",
       total_tokens := 0, error := true, provider := "none" }, r.health)

/-- Per-provider configuration entry (`config.providers.models[key]`):
only the fields the constructor reads are modelled. -/
structure ModelConfig where
  name : String
  enabled : Bool
  deriving DecidableEq, Repr

/-- The `config.providers` section read by the `ProviderManager`
constructor: `primary`, `fallback`, `models`. -/
structure ProvidersConfig where
  primary : Option String
  fallback : Option (List String)
  models : Option (List (String × ModelConfig))
  deriving DecidableEq, Repr

/-- Top-level configuration object passed to `new ProviderManager(config)`. -/
structure Config where
  providers : Option ProvidersConfig
  deriving DecidableEq, Repr

/-- `this.primaryProvider = config.providers?.primary || 'deepseek'`
(line 89); JS `||` also replaces an empty string. -/
def mkPrimaryProvider (config : Config) : String :=
  match config.providers with
  | none => "deepseek"
  | some p =>
    match p.primary with
    | none => "deepseek"
    | some s => if s = "" then "deepseek" else s

/-- `this.fallbackProviders = config.providers?.fallback || []` (line 90). -/
def mkFallbackProviders (config : Config) : List String :=
  (config.providers.bind (fun p => p.fallback)).getD []

/-- The keys registered by `initializeProviders` (lines 97-115): every
entry of `config.providers.models` whose `enabled` flag is set; when the
`models` section is missing, nothing is registered (the constructor only
logs an error and returns). -/
def registeredProviders (config : Config) : List String :=
  match config.providers.bind (fun p => p.models) with
  | none => []
  | some models => (models.filter (fun kv => kv.2.enabled)).map Prod.fst

/-- The state built by the `ProviderManager` constructor (lines 86-95). -/
structure ProviderManager where
  primaryProvider : String
  fallbackProviders : List String
  registered : List String
  providerHealth : HealthMap

/-- `new ProviderManager(config)` (lines 86-95): a TOTAL function — the
constructor contains no validation of the primary or fallback keys and
no throw; every provider registered by `initializeProviders` starts with
`initHealth`. -/
def mkProviderManager (config : Config) : ProviderManager :=
  { primaryProvider := mkPrimaryProvider config
    fallbackProviders := mkFallbackProviders config
    registered := registeredProviders config
    providerHealth := fun k =>
      if (registeredProviders config).contains k then some initHealth else none }

/-- Health-map states reachable at run time: the constructor's initial
map, followed by any sequence of outcome recordings.  The only call
sites of `updateProviderHealth` are `callWithFallback` (lines 134, 144:
`'healthy'` with a response time, `'error'` without) and
`startHealthChecks` (lines 190, 192: `'healthy'` or `'error'` without a
response time); no caller ever passes status `'unknown'`. -/
inductive ReachableHealth : HealthMap → Prop where
  | init (reg : List String) :
      ReachableHealth (fun k => if reg.contains k then some initHealth else none)
  | success (m : HealthMap) (k : String) (now : Nat) (rt : Option Nat) :
      ReachableHealth m → ReachableHealth (updateProviderHealth m k HStatus.healthy now rt)
  | failure (m : HealthMap) (k : String) (now : Nat) :
      ReachableHealth m → ReachableHealth (updateProviderHealth m k HStatus.error now none)

/-- An attempt entry whose outcome was a thrown provider error. -/
def attemptFailed : String × AttemptOutcome → Bool
  | (_, AttemptOutcome.fail _ _) => true
  | (_, AttemptOutcome.ok _ _ _) => false

/-- The `lastError` accumulator after processing a list of attempts:
each failed attempt overwrites it with that failure's message. -/
def lastFailMsg : Option String → List (String × AttemptOutcome) → Option String
  | acc, [] => acc
  | acc, (_, AttemptOutcome.ok _ _ _) :: rest => lastFailMsg acc rest
  | _, (_, AttemptOutcome.fail msg _) :: rest => lastFailMsg (some msg) rest

section HelperLemmas

/-- Full characterization of the record stored at the updated key,
valid also when the key had no record yet (the JS `|| {}` default). -/
theorem updateProviderHealth_self (m : HealthMap) (k : String) (st : HStatus)
    (now : Nat) (rt : Option Nat) :
    updateProviderHealth m k st now rt k = some
      { status := st,
        lastCheck := some now,
        responseTime :=
          match rt with
          | some r => if r = 0 then ((m k).getD initHealth).responseTime else some r
          | none => ((m k).getD initHealth).responseTime,
        errorCount :=
          if st = HStatus.error then ((m k).getD initHealth).errorCount + 1
          else if st = HStatus.healthy then 0
          else ((m k).getD initHealth).errorCount } := by
  rcases rt with _ | r
  · by_cases h1 : st = HStatus.error <;> by_cases h2 : st = HStatus.healthy <;>
      simp [updateProviderHealth, initHealth, h1, h2]
  · by_cases h0 : r = 0 <;> by_cases h1 : st = HStatus.error <;>
      by_cases h2 : st = HStatus.healthy <;>
      simp [updateProviderHealth, initHealth, h0, h1, h2]

/-- Updating key `a` leaves every other key's record untouched. -/
theorem updateProviderHealth_ne (m : HealthMap) (a b : String) (st : HStatus)
    (now : Nat) (rt : Option Nat) (hab : b ≠ a) :
    updateProviderHealth m a st now rt b = m b := by
  simp only [updateProviderHealth]
  simp [hab]

/-- Recording a success with response time `rt` at a key holding record `h`. -/
theorem updateProviderHealth_healthy (m : HealthMap) (k : String) (now rt : Nat)
    (h : Health) (hm : m k = some h) :
    updateProviderHealth m k HStatus.healthy now (some rt) k
      = some { status := HStatus.healthy, lastCheck := some now,
               responseTime := if rt = 0 then h.responseTime else some rt,
               errorCount := 0 } := by
  simp only [updateProviderHealth, hm, Option.getD_some]
  by_cases h0 : rt = 0 <;> simp [h0]

/-- Recording a failure (no response time) at a key holding record `h`. -/
theorem updateProviderHealth_error (m : HealthMap) (k : String) (now : Nat)
    (h : Health) (hm : m k = some h) :
    updateProviderHealth m k HStatus.error now none k
      = some { status := HStatus.error, lastCheck := some now,
               responseTime := h.responseTime, errorCount := h.errorCount + 1 } := by
  simp [updateProviderHealth, hm]

/-- Every attempt made by the failover loop is on a registered key
(the `!provider` half of the guard on line 123). -/
theorem attempts_registered (env : Nat → AttemptOutcome) (registered : String → Bool) :
    ∀ (cands : List String) (m : HealthMap) (now idx : Nat) (lastErr : Option String)
      (p : String × AttemptOutcome),
      p ∈ (callWithFallbackAux env registered cands m now idx lastErr).attempts →
      registered p.1 = true := by
  intro cands
  induction cands with
  | nil =>
    intro m now idx le p hp
    simp [callWithFallbackAux] at hp
  | cons key rest ih =>
    intro m now idx le p hp
    by_cases hg : (registered key && isProviderHealthy m key now) = true
    · simp only [callWithFallbackAux, if_pos hg] at hp
      cases henv : env idx with
      | ok text tokens duration =>
        rw [henv] at hp
        simp only [List.mem_singleton] at hp
        rw [hp]
        exact ((Bool.and_eq_true _ _).mp hg).1
      | fail msg duration =>
        rw [henv] at hp
        simp only [List.mem_cons] at hp
        cases hp with
        | inl hp =>
          rw [hp]
          exact ((Bool.and_eq_true _ _).mp hg).1
        | inr hp => exact ih _ _ _ _ p hp
    · simp only [callWithFallbackAux, if_neg hg] at hp
      exact ih _ _ _ _ p hp

/-- When no candidate passes the guard, the loop makes no attempt,
leaves the health map untouched, and falls through to the throw with
`lastError` still as given. -/
theorem callWithFallbackAux_no_eligible (env : Nat → AttemptOutcome)
    (registered : String → Bool) :
    ∀ (cands : List String) (m : HealthMap) (now idx : Nat) (lastErr : Option String),
      (∀ k ∈ cands, (registered k && isProviderHealthy m k now) = false) →
      callWithFallbackAux env registered cands m now idx lastErr =
        { result := Except.error
            ("All providers failed. Last error: " ++ lastErr.getD "Unknown error"),
          health := m, nextIdx := idx, attempts := [] } := by
  intro cands
  induction cands with
  | nil => intro m now idx le _; rfl
  | cons key rest ih =>
    intro m now idx le hall
    have hkey : (registered key && isProviderHealthy m key now) = false :=
      hall key (List.mem_cons_self key rest)
    simp only [callWithFallbackAux]
    rw [if_neg (by simp [hkey])]
    exact ih m now idx le (fun k hk => hall k (List.mem_cons_of_mem _ hk))

/-- Eligibility only depends on the key's own record. -/
theorem isProviderHealthy_congr (m m2 : HealthMap) (k : String) (now : Nat)
    (h : m k = m2 k) : isProviderHealthy m k now = isProviderHealthy m2 k now := by
  unfold isProviderHealthy
  rw [h]

/-- The accumulated `lastError` after an attempt log ending in a failed
attempt is that failure's message. -/
theorem lastFailMsg_getLast :
    ∀ (log : List (String × AttemptOutcome)) (acc : Option String) (k msg : String) (d : Nat),
      log.getLast? = some (k, AttemptOutcome.fail msg d) →
      lastFailMsg acc log = some msg := by
  intro log
  induction log with
  | nil => intro acc k msg d h; exact Option.noConfusion h
  | cons a rest ih =>
    intro acc k msg d h
    cases rest with
    | nil =>
      simp only [List.getLast?_singleton, Option.some.injEq] at h
      rw [h]
      rfl
    | cons b rest2 =>
      rw [List.getLast?_cons_cons] at h
      obtain ⟨ka, oa⟩ := a
      cases oa with
      | ok t tk dur =>
        simp only [lastFailMsg]
        exact ih acc k msg d h
      | fail mm dd =>
        simp only [lastFailMsg]
        exact ih (some mm) k msg d h

/-- When every attempt in the log failed, the loop falls through to the
throw, and the aggregate message carries the accumulated last error. -/
theorem callWithFallbackAux_all_fail (env : Nat → AttemptOutcome)
    (registered : String → Bool) :
    ∀ (cands : List String) (m : HealthMap) (now idx : Nat) (le : Option String),
      (∀ a ∈ (callWithFallbackAux env registered cands m now idx le).attempts,
        attemptFailed a = true) →
      (callWithFallbackAux env registered cands m now idx le).result =
        Except.error ("All providers failed. Last error: " ++
          (lastFailMsg le (callWithFallbackAux env registered cands m now idx le).attempts).getD
            "Unknown error") := by
  intro cands
  induction cands with
  | nil => intro m now idx le _; rfl
  | cons key rest ih =>
    intro m now idx le hall
    by_cases hg : (registered key && isProviderHealthy m key now) = true
    · cases henv : env idx with
      | ok text tokens duration =>
        exfalso
        have heq : callWithFallbackAux env registered (key :: rest) m now idx le =
            { result := Except.ok
                { text := text, tokens := tokens, provider := key,
                  responseTime := duration },
              health := updateProviderHealth m key HStatus.healthy (now + duration)
                (some duration),
              nextIdx := idx + 1,
              attempts := [(key, AttemptOutcome.ok text tokens duration)] } := by
          simp only [callWithFallbackAux, if_pos hg, henv]
        have hmem : (key, AttemptOutcome.ok text tokens duration)
            ∈ (callWithFallbackAux env registered (key :: rest) m now idx le).attempts := by
          rw [heq]
          exact List.mem_singleton.mpr rfl
        have hfa := hall _ hmem
        simp [attemptFailed] at hfa
      | fail msg duration =>
        have heq : callWithFallbackAux env registered (key :: rest) m now idx le =
            { result := (callWithFallbackAux env registered rest
                (updateProviderHealth m key HStatus.error (now + duration) none)
                (now + duration) (idx + 1) (some msg)).result,
              health := (callWithFallbackAux env registered rest
                (updateProviderHealth m key HStatus.error (now + duration) none)
                (now + duration) (idx + 1) (some msg)).health,
              nextIdx := (callWithFallbackAux env registered rest
                (updateProviderHealth m key HStatus.error (now + duration) none)
                (now + duration) (idx + 1) (some msg)).nextIdx,
              attempts := (key, AttemptOutcome.fail msg duration) ::
                (callWithFallbackAux env registered rest
                  (updateProviderHealth m key HStatus.error (now + duration) none)
                  (now + duration) (idx + 1) (some msg)).attempts } := by
          simp only [callWithFallbackAux, if_pos hg, henv]
        rw [heq] at hall ⊢
        simp only [lastFailMsg]
        exact ih _ _ _ _ (fun a ha => hall a (List.mem_cons_of_mem _ ha))
    · have heq : callWithFallbackAux env registered (key :: rest) m now idx le =
          callWithFallbackAux env registered rest m now idx le := by
        simp only [callWithFallbackAux, if_neg hg]
      rw [heq] at hall ⊢
      exact ih m now idx le hall

/-- The keys actually attempted form a sublist of the candidate list:
each candidate is attempted at most once, in order. -/
theorem attempts_sublist (env : Nat → AttemptOutcome) (registered : String → Bool) :
    ∀ (cands : List String) (m : HealthMap) (now idx : Nat) (le : Option String),
      ((callWithFallbackAux env registered cands m now idx le).attempts.map
        Prod.fst).Sublist cands := by
  intro cands
  induction cands with
  | nil =>
    intro m now idx le
    simp [callWithFallbackAux]
  | cons key rest ih =>
    intro m now idx le
    by_cases hg : (registered key && isProviderHealthy m key now) = true
    · cases henv : env idx with
      | ok text tokens duration =>
        have heq : callWithFallbackAux env registered (key :: rest) m now idx le =
            { result := Except.ok
                { text := text, tokens := tokens, provider := key,
                  responseTime := duration },
              health := updateProviderHealth m key HStatus.healthy (now + duration)
                (some duration),
              nextIdx := idx + 1,
              attempts := [(key, AttemptOutcome.ok text tokens duration)] } := by
          simp only [callWithFallbackAux, if_pos hg, henv]
        rw [heq]
        exact List.Sublist.cons₂ key (List.nil_sublist rest)
      | fail msg duration =>
        have heq : callWithFallbackAux env registered (key :: rest) m now idx le =
            { result := (callWithFallbackAux env registered rest
                (updateProviderHealth m key HStatus.error (now + duration) none)
                (now + duration) (idx + 1) (some msg)).result,
              health := (callWithFallbackAux env registered rest
                (updateProviderHealth m key HStatus.error (now + duration) none)
                (now + duration) (idx + 1) (some msg)).health,
              nextIdx := (callWithFallbackAux env registered rest
                (updateProviderHealth m key HStatus.error (now + duration) none)
                (now + duration) (idx + 1) (some msg)).nextIdx,
              attempts := (key, AttemptOutcome.fail msg duration) ::
                (callWithFallbackAux env registered rest
                  (updateProviderHealth m key HStatus.error (now + duration) none)
                  (now + duration) (idx + 1) (some msg)).attempts } := by
          simp only [callWithFallbackAux, if_pos hg, henv]
        rw [heq]
        simp only [List.map_cons]
        exact List.Sublist.cons₂ key (ih _ _ _ _)
    · have heq : callWithFallbackAux env registered (key :: rest) m now idx le =
          callWithFallbackAux env registered rest m now idx le := by
        simp only [callWithFallbackAux, if_neg hg]
      rw [heq]
      exact List.Sublist.cons key (ih m now idx le)

end HelperLemmas

/-- C4.  Eligibility classification: a provider with a health record is
eligible exactly when its status is `healthy`, or its status is
`unknown` with error count below the ceiling, or its last check is
older than the staleness window; in particular a provider with status
`error` and error count at or above the ceiling becomes eligible again
once the window has elapsed, with no successful probe in between. -/
theorem c4_eligibility_iff (m : HealthMap) (k : String) (now : Nat) (h : Health)
    (hm : m k = some h) :
    (isProviderHealthy m k now = true ↔
      (h.status = HStatus.healthy
        ∨ (h.status = HStatus.unknown ∧ h.errorCount < maxErrorCount)
        ∨ ((now : Int) - ((h.lastCheck.getD 0 : Nat) : Int) > (healthCheckTimeout : Int))))
    ∧ (h.status = HStatus.error → maxErrorCount ≤ h.errorCount →
        ((now : Int) - ((h.lastCheck.getD 0 : Nat) : Int) > (healthCheckTimeout : Int)) →
        isProviderHealthy m k now = true) := by
  constructor
  · simp [isProviderHealthy, hm]
  · intro _ _ hstale
    simp [isProviderHealthy, hm]
    exact Or.inr (Or.inr hstale)

/-- Witness for C4: a provider with status `error`, error count 7 and a
check 6 minutes old is eligible again. -/
theorem c4_eligibility_witness :
    ((fun k => if k = "a" then some
        { status := HStatus.error, lastCheck := some 1000, responseTime := none,
          errorCount := 7 } else none : HealthMap) "a" = some
        { status := HStatus.error, lastCheck := some 1000, responseTime := none,
          errorCount := 7 })
    ∧ isProviderHealthy
        (fun k => if k = "a" then some
          { status := HStatus.error, lastCheck := some 1000, responseTime := none,
            errorCount := 7 } else none) "a" 361000 = true := by
  refine ⟨rfl, ?_⟩
  exact (c4_eligibility_iff _ "a" 361000 _ rfl).2 rfl (by decide) (by decide)

/-- C7.  No cross-key interference: recording any outcome (any status,
with or without a response time) for key `a` leaves key `b`'s record
unchanged. -/
theorem c7_no_cross_key_interference (m : HealthMap) (a b : String) (st : HStatus)
    (now : Nat) (rt : Option Nat) (hab : a ≠ b) :
    updateProviderHealth m a st now rt b = m b :=
  updateProviderHealth_ne m a b st now rt (Ne.symm hab)

/-- Witness for C7: recording a success for `"a"` leaves `"b"`'s record
as it was. -/
theorem c7_frame_witness :
    ("a" : String) ≠ "b"
    ∧ updateProviderHealth
        (fun k => if k = "b" then some initHealth else none)
        "a" HStatus.healthy 5 (some 3) "b" =
      (fun k => if k = "b" then some initHealth else none : HealthMap) "b" := by
  refine ⟨by decide, ?_⟩
  exact c7_no_cross_key_interference _ "a" "b" HStatus.healthy 5 (some 3) (by decide)

/-- C10.  Zero-elapsed edge case: recording a success whose measured
elapsed time is 0 ms sets status `healthy`, resets the error count,
updates the check timestamp, but leaves the stored response time
unchanged (JS `if (responseTime)` is false at `0`). -/
theorem c10_zero_elapsed (m : HealthMap) (k : String) (now : Nat) (h : Health)
    (hm : m k = some h) :
    updateProviderHealth m k HStatus.healthy now (some 0) k
      = some { status := HStatus.healthy, lastCheck := some now,
               responseTime := h.responseTime, errorCount := 0 } := by
  have := updateProviderHealth_healthy m k now 0 h hm
  simpa using this

/-- Witness for C10: a zero-elapsed success on a record holding response
time 120 keeps 120. -/
theorem c10_zero_elapsed_witness :
    ((fun k => if k = "a" then some
        { status := HStatus.error, lastCheck := some 50, responseTime := some 120,
          errorCount := 2 } else none : HealthMap) "a" = some
        { status := HStatus.error, lastCheck := some 50, responseTime := some 120,
          errorCount := 2 })
    ∧ updateProviderHealth
        (fun k => if k = "a" then some
          { status := HStatus.error, lastCheck := some 50, responseTime := some 120,
            errorCount := 2 } else none)
        "a" HStatus.healthy 99 (some 0) "a"
      = some { status := HStatus.healthy, lastCheck := some 99,
               responseTime := some 120, errorCount := 0 } := by
  refine ⟨rfl, ?_⟩
  exact c10_zero_elapsed
    (fun k => if k = "a" then some
      { status := HStatus.error, lastCheck := some 50, responseTime := some 120,
        errorCount := 2 } else none)
    "a" 99
    { status := HStatus.error, lastCheck := some 50, responseTime := some 120,
      errorCount := 2 } rfl

/-- C1 counterexample.  A single configured provider `"only"` whose
record has status `error` and error count 5 (the ceiling), with a check
made at the current instant: the eligibility filter yields nothing, and
`callWithFallback` attempts NO provider and throws
`All providers failed. Last error: Unknown error` — the claimed
graceful-degradation fallback to the primary does not exist in the code. -/
theorem c1_no_eligible_fails_immediately :
    (callWithFallback (fun _ => AttemptOutcome.fail "boom" 1) (fun k => k == "only")
        "only" []
        (fun k => if k = "only" then some
          { status := HStatus.error, lastCheck := some 1000000, responseTime := none,
            errorCount := 5 } else none)
        1000000).attempts = []
    ∧ (callWithFallback (fun _ => AttemptOutcome.fail "boom" 1) (fun k => k == "only")
        "only" []
        (fun k => if k = "only" then some
          { status := HStatus.error, lastCheck := some 1000000, responseTime := none,
            errorCount := 5 } else none)
        1000000).result
      = Except.error "All providers failed. Last error: Unknown error" :=
  ⟨rfl, rfl⟩

/-- C1 amended.  When the eligibility filter leaves no candidate (no
configured key is both registered and eligible), `callWithFallback`
attempts nothing, fails immediately with the aggregate error carrying
`Unknown error`, and leaves the health state untouched. -/
theorem c1_amended_no_graceful_degradation (env : Nat → AttemptOutcome)
    (registered : String → Bool) (primaryProvider : String)
    (fallbackProviders : List String) (m : HealthMap) (now : Nat)
    (hnone : ∀ k ∈ primaryProvider :: fallbackProviders,
      (registered k && isProviderHealthy m k now) = false) :
    (callWithFallback env registered primaryProvider fallbackProviders m now).attempts = []
    ∧ (callWithFallback env registered primaryProvider fallbackProviders m now).result
        = Except.error "All providers failed. Last error: Unknown error"
    ∧ (callWithFallback env registered primaryProvider fallbackProviders m now).health = m := by
  have h := callWithFallbackAux_no_eligible env registered
    (primaryProvider :: fallbackProviders) m now 0 none hnone
  rw [callWithFallback, h]
  exact ⟨rfl, rfl, rfl⟩

/-- Witness for the amended C1, at the counterexample's configuration
shifted to a different timestamp. -/
theorem c1_amended_witness :
    (∀ k ∈ ("only" :: ([] : List String)),
      ((fun kk => kk == "only") k && isProviderHealthy
        (fun kk => if kk = "only" then some
          { status := HStatus.error, lastCheck := some 2000000, responseTime := none,
            errorCount := 5 } else none) k 2000000) = false)
    ∧ ((callWithFallback (fun _ => AttemptOutcome.fail "x" 1) (fun kk => kk == "only")
          "only" []
          (fun kk => if kk = "only" then some
            { status := HStatus.error, lastCheck := some 2000000, responseTime := none,
              errorCount := 5 } else none) 2000000).attempts = []
        ∧ (callWithFallback (fun _ => AttemptOutcome.fail "x" 1) (fun kk => kk == "only")
            "only" []
            (fun kk => if kk = "only" then some
              { status := HStatus.error, lastCheck := some 2000000, responseTime := none,
                errorCount := 5 } else none) 2000000).result
          = Except.error "All providers failed. Last error: Unknown error"
        ∧ (callWithFallback (fun _ => AttemptOutcome.fail "x" 1) (fun kk => kk == "only")
            "only" []
            (fun kk => if kk = "only" then some
              { status := HStatus.error, lastCheck := some 2000000, responseTime := none,
                errorCount := 5 } else none) 2000000).health
          = (fun kk => if kk = "only" then some
              { status := HStatus.error, lastCheck := some 2000000, responseTime := none,
                errorCount := 5 } else none)) :=
  ⟨by decide, c1_amended_no_graceful_degradation _ _ "only" [] _ 2000000 (by decide)⟩

/-- C5 counterexample.  A configuration whose primary key `"x"` is not
among the enabled registered providers (only `"y"` is enabled):
`mkProviderManager` — a total function, mirroring a constructor with no
validation and no throw — still succeeds, and the resulting registry has
a primary key outside its registered set, refuting both the claimed
startup failure and the claimed invariant of constructed registries. -/
theorem c5_primary_unvalidated_counterexample :
    (mkProviderManager
        { providers := some
            { primary := some "x", fallback := some [],
              models := some [("y", { name := "Y", enabled := true })] } }).primaryProvider
      = "x"
    ∧ (mkProviderManager
        { providers := some
            { primary := some "x", fallback := some [],
              models := some [("y", { name := "Y", enabled := true })] } }).registered
      = ["y"]
    ∧ ((mkProviderManager
        { providers := some
            { primary := some "x", fallback := some [],
              models := some [("y", { name := "Y", enabled := true })] } }).registered).contains
        (mkProviderManager
          { providers := some
              { primary := some "x", fallback := some [],
                models := some [("y", { name := "Y", enabled := true })] } }).primaryProvider
      = false := by
  refine ⟨rfl, rfl, ?_⟩
  decide

/-- C5 amended.  Construction never validates the primary key; instead,
a primary key outside the registered set is silently skipped at call
time: it never appears among the providers `callWithFallback` attempts. -/
theorem c5_amended_unregistered_primary_skipped (config : Config)
    (env : Nat → AttemptOutcome) (m : HealthMap) (now : Nat)
    (hreg : ((mkProviderManager config).registered).contains
        (mkProviderManager config).primaryProvider = false) :
    (((callWithFallback env
        (fun k => ((mkProviderManager config).registered).contains k)
        (mkProviderManager config).primaryProvider
        (mkProviderManager config).fallbackProviders m now).attempts.map Prod.fst).contains
      (mkProviderManager config).primaryProvider) = false := by
  rw [← Bool.not_eq_true, List.contains_iff_exists_mem_beq]
  rintro ⟨a, ha, hab⟩
  rw [List.mem_map] at ha
  obtain ⟨p, hp, hpa⟩ := ha
  have hr := attempts_registered env
    (fun k => ((mkProviderManager config).registered).contains k)
    _ m now 0 none p hp
  rw [beq_iff_eq] at hab
  have hr2 : ((mkProviderManager config).registered).contains p.1 = true := hr
  rw [hpa, ← hab] at hr2
  rw [hr2] at hreg
  cases hreg


/-- C9.  Invariant of the `unknown` status: in every reachable health
state, a record with status `unknown` still has error count 0 and a
null last-check timestamp — `unknown` exists only as the registration
state, since every recorded outcome sets status `healthy` or `error`. -/
theorem c9_unknown_invariant (m : HealthMap) (hr : ReachableHealth m) :
    ∀ (k : String) (h : Health), m k = some h → h.status = HStatus.unknown →
      h.errorCount = 0 ∧ h.lastCheck = none := by
  induction hr with
  | init reg =>
    intro k h hm _
    have hm2 : (if reg.contains k = true then some initHealth else none) = some h := hm
    split at hm2
    · cases hm2
      exact ⟨rfl, rfl⟩
    · exact Option.noConfusion hm2
  | success m' k' now rt hr' ih =>
    intro k h hm hs
    by_cases hk : k = k'
    · subst hk
      rw [updateProviderHealth_self] at hm
      injection hm with h1
      rw [← h1] at hs
      simp at hs
    · rw [updateProviderHealth_ne m' k' k HStatus.healthy now rt hk] at hm
      exact ih k h hm hs
  | failure m' k' now hr' ih =>
    intro k h hm hs
    by_cases hk : k = k'
    · subst hk
      rw [updateProviderHealth_self] at hm
      injection hm with h1
      rw [← h1] at hs
      simp at hs
    · rw [updateProviderHealth_ne m' k' k HStatus.error now none hk] at hm
      exact ih k h hm hs

/-- Witness for C9: the freshly registered single-provider state. -/
theorem c9_unknown_invariant_witness :
    ((fun k => if ["a"].contains k then some initHealth else none : HealthMap) "a"
        = some initHealth)
    ∧ initHealth.status = HStatus.unknown
    ∧ (initHealth.errorCount = 0 ∧ initHealth.lastCheck = none) :=
  ⟨by decide, rfl,
    c9_unknown_invariant _ (ReachableHealth.init ["a"]) "a" initHealth (by decide) rfl⟩

/-- C6 counterexample.  Recording a success with a measured elapsed time
of 0 ms on a record previously holding response time 100 does NOT store
the new response time (JS `if (responseTime)` is falsy at `0`): the
stored value stays 100, refuting the unconditional `stores the response
time` of the claim. -/
theorem c6_zero_rt_counterexample :
    updateProviderHealth
        (fun k => if k = "a" then some
          { status := HStatus.error, lastCheck := some 500, responseTime := some 100,
            errorCount := 3 } else none)
        "a" HStatus.healthy 1000 (some 0) "a"
      = some { status := HStatus.healthy, lastCheck := some 1000,
               responseTime := some 100, errorCount := 0 }
    ∧ updateProviderHealth
        (fun k => if k = "a" then some
          { status := HStatus.error, lastCheck := some 500, responseTime := some 100,
            errorCount := 3 } else none)
        "a" HStatus.healthy 1000 (some 0) "a"
      ≠ some { status := HStatus.healthy, lastCheck := some 1000,
               responseTime := some 0, errorCount := 0 } :=
  ⟨by decide, by decide⟩

/-- C6 amended.  Recording a success sets status `healthy`, resets the
error count to 0, stores the check timestamp, and stores the response
time exactly when it is nonzero (a zero measurement leaves the stored
value unchanged); recording a failure sets status `error`, increments
the error count, stores the check timestamp, and leaves the stored
response time unchanged. -/
theorem c6_amended_record_outcome (m : HealthMap) (k : String) (now rt : Nat) (h : Health)
    (hm : m k = some h) :
    updateProviderHealth m k HStatus.healthy now (some rt) k
      = some { status := HStatus.healthy, lastCheck := some now,
               responseTime := if rt = 0 then h.responseTime else some rt,
               errorCount := 0 }
    ∧ updateProviderHealth m k HStatus.error now none k
      = some { status := HStatus.error, lastCheck := some now,
               responseTime := h.responseTime, errorCount := h.errorCount + 1 } :=
  ⟨updateProviderHealth_healthy m k now rt h hm, updateProviderHealth_error m k now h hm⟩

/-- Witness for the amended C6, on a record with 4 consecutive errors
and a stored response time of 42, recording outcomes at time 10. -/
theorem c6_amended_record_outcome_witness :
    ((fun k => if k = "a" then some
        { status := HStatus.unknown, lastCheck := none, responseTime := some 42,
          errorCount := 4 } else none : HealthMap) "a"
      = some { status := HStatus.unknown, lastCheck := none, responseTime := some 42,
               errorCount := 4 })
    ∧ (updateProviderHealth
        (fun k => if k = "a" then some
          { status := HStatus.unknown, lastCheck := none, responseTime := some 42,
            errorCount := 4 } else none)
        "a" HStatus.healthy 10 (some 7) "a"
        = some { status := HStatus.healthy, lastCheck := some 10,
                 responseTime := if (7 : Nat) = 0 then
                   (Health.mk HStatus.unknown none (some 42) 4).responseTime else some 7,
                 errorCount := 0 }
      ∧ updateProviderHealth
          (fun k => if k = "a" then some
            { status := HStatus.unknown, lastCheck := none, responseTime := some 42,
              errorCount := 4 } else none)
          "a" HStatus.error 10 none "a"
        = some { status := HStatus.error, lastCheck := some 10,
                 responseTime := (Health.mk HStatus.unknown none (some 42) 4).responseTime,
                 errorCount := (Health.mk HStatus.unknown none (some 42) 4).errorCount + 1 }) :=
  ⟨rfl, c6_amended_record_outcome
    (fun k => if k = "a" then some
      { status := HStatus.unknown, lastCheck := none, responseTime := some 42,
        errorCount := 4 } else none)
    "a" 10 7 (Health.mk HStatus.unknown none (some 42) 4) rfl⟩

/-- Witness for the amended C5, at the counterexample configuration:
primary `"x"` unregistered, one call made over an empty health map. -/
theorem c5_amended_witness :
    (((mkProviderManager
        { providers := some
            { primary := some "x", fallback := some [],
              models := some [("y", { name := "Y", enabled := true })] } }).registered).contains
      (mkProviderManager
        { providers := some
            { primary := some "x", fallback := some [],
              models := some [("y", { name := "Y", enabled := true })] } }).primaryProvider
      = false)
    ∧ (((callWithFallback (fun _ => AttemptOutcome.fail "z" 1)
          (fun k => ((mkProviderManager
            { providers := some
                { primary := some "x", fallback := some [],
                  models := some [("y", { name := "Y", enabled := true })] } }).registered).contains k)
          (mkProviderManager
            { providers := some
                { primary := some "x", fallback := some [],
                  models := some [("y", { name := "Y", enabled := true })] } }).primaryProvider
          (mkProviderManager
            { providers := some
                { primary := some "x", fallback := some [],
                  models := some [("y", { name := "Y", enabled := true })] } }).fallbackProviders
          (fun _ => none) 0).attempts.map Prod.fst).contains
        (mkProviderManager
          { providers := some
              { primary := some "x", fallback := some [],
                models := some [("y", { name := "Y", enabled := true })] } }).primaryProvider
      = false) :=
  ⟨by decide, c5_amended_unregistered_primary_skipped
    { providers := some
        { primary := some "x", fallback := some [],
          models := some [("y", { name := "Y", enabled := true })] } }
    (fun _ => AttemptOutcome.fail "z" 1) (fun _ => none) 0 (by decide)⟩

/-- C2.  Failover order and short-circuit: with primary `A` and fallback
list `[B]`, both registered with eligible records, where `A`'s attempt
throws and `B`'s succeeds, `callWithFallback` returns `B`'s result with
`B`'s key and elapsed time attached, the attempt log is exactly one
failure for `A` followed by one success for `B` (nothing after the first
success), `A`'s record shows the one recorded failure, and `B`'s record
shows the one recorded success. -/
theorem c2_failover_short_circuit
    (env : Nat → AttemptOutcome) (registered : String → Bool)
    (A B : String) (m : HealthMap) (now : Nat)
    (msgA textB : String) (tokB durA durB : Nat) (hA hB : Health)
    (hAB : A ≠ B)
    (henv0 : env 0 = AttemptOutcome.fail msgA durA)
    (henv1 : env 1 = AttemptOutcome.ok textB tokB durB)
    (hregA : registered A = true) (hregB : registered B = true)
    (hmA : m A = some hA) (hmB : m B = some hB)
    (hhA : isProviderHealthy m A now = true)
    (hhB : isProviderHealthy m B (now + durA) = true) :
    (callWithFallback env registered A [B] m now).result
      = Except.ok { text := textB, tokens := tokB, provider := B, responseTime := durB }
    ∧ (callWithFallback env registered A [B] m now).attempts
      = [(A, AttemptOutcome.fail msgA durA), (B, AttemptOutcome.ok textB tokB durB)]
    ∧ (callWithFallback env registered A [B] m now).health A
      = some { status := HStatus.error, lastCheck := some (now + durA),
               responseTime := hA.responseTime, errorCount := hA.errorCount + 1 }
    ∧ (callWithFallback env registered A [B] m now).health B
      = some { status := HStatus.healthy, lastCheck := some (now + durA + durB),
               responseTime := if durB = 0 then hB.responseTime else some durB,
               errorCount := 0 } := by
  have hmB2 : updateProviderHealth m A HStatus.error (now + durA) none B = m B :=
    updateProviderHealth_ne m A B HStatus.error (now + durA) none (Ne.symm hAB)
  have hg1 : (registered A && isProviderHealthy m A now) = true := by
    rw [hregA, hhA]
    rfl
  have hg2 : (registered B && isProviderHealthy
      (updateProviderHealth m A HStatus.error (now + durA) none) B (now + durA)) = true := by
    rw [hregB, isProviderHealthy_congr _ m B (now + durA) hmB2, hhB]
    rfl
  have hred : callWithFallback env registered A [B] m now =
      { result := Except.ok
          { text := textB, tokens := tokB, provider := B, responseTime := durB },
        health := updateProviderHealth
          (updateProviderHealth m A HStatus.error (now + durA) none)
          B HStatus.healthy (now + durA + durB) (some durB),
        nextIdx := 0 + 1 + 1,
        attempts := [(A, AttemptOutcome.fail msgA durA),
          (B, AttemptOutcome.ok textB tokB durB)] } := by
    simp only [callWithFallback, callWithFallbackAux, if_pos hg1, henv0, Nat.zero_add,
      if_pos hg2, henv1]
  refine ⟨by rw [hred], by rw [hred], ?_, ?_⟩
  · rw [hred]
    show updateProviderHealth (updateProviderHealth m A HStatus.error (now + durA) none)
      B HStatus.healthy (now + durA + durB) (some durB) A = _
    rw [updateProviderHealth_ne _ B A HStatus.healthy (now + durA + durB) (some durB) hAB]
    exact updateProviderHealth_error m A (now + durA) hA hmA
  · rw [hred]
    show updateProviderHealth (updateProviderHealth m A HStatus.error (now + durA) none)
      B HStatus.healthy (now + durA + durB) (some durB) B = _
    have hmB3 : updateProviderHealth m A HStatus.error (now + durA) none B = some hB := by
      rw [hmB2, hmB]
    exact updateProviderHealth_healthy _ B (now + durA + durB) durB hB hmB3

/-- Witness for C2: primary `"a"` fails after 5 ms, fallback `"b"`
succeeds in 7 ms, both freshly registered. -/
theorem c2_failover_witness :
    (("a" : String) ≠ "b"
      ∧ (fun i => if i = 0 then AttemptOutcome.fail "boom" 5
          else AttemptOutcome.ok "hi" 3 7) 0 = AttemptOutcome.fail "boom" 5
      ∧ (fun i => if i = 0 then AttemptOutcome.fail "boom" 5
          else AttemptOutcome.ok "hi" 3 7) 1 = AttemptOutcome.ok "hi" 3 7
      ∧ (fun k => k == "a" || k == "b") "a" = true
      ∧ (fun k => k == "a" || k == "b") "b" = true
      ∧ (fun k => if k = "a" then some initHealth
          else if k = "b" then some initHealth else none : HealthMap) "a" = some initHealth
      ∧ (fun k => if k = "a" then some initHealth
          else if k = "b" then some initHealth else none : HealthMap) "b" = some initHealth
      ∧ isProviderHealthy
          (fun k => if k = "a" then some initHealth
            else if k = "b" then some initHealth else none) "a" 0 = true
      ∧ isProviderHealthy
          (fun k => if k = "a" then some initHealth
            else if k = "b" then some initHealth else none) "b" (0 + 5) = true)
    ∧ ((callWithFallback
          (fun i => if i = 0 then AttemptOutcome.fail "boom" 5
            else AttemptOutcome.ok "hi" 3 7)
          (fun k => k == "a" || k == "b") "a" ["b"]
          (fun k => if k = "a" then some initHealth
            else if k = "b" then some initHealth else none) 0).result
        = Except.ok { text := "hi", tokens := 3, provider := "b", responseTime := 7 }
      ∧ (callWithFallback
          (fun i => if i = 0 then AttemptOutcome.fail "boom" 5
            else AttemptOutcome.ok "hi" 3 7)
          (fun k => k == "a" || k == "b") "a" ["b"]
          (fun k => if k = "a" then some initHealth
            else if k = "b" then some initHealth else none) 0).attempts
        = [("a", AttemptOutcome.fail "boom" 5), ("b", AttemptOutcome.ok "hi" 3 7)]
      ∧ (callWithFallback
          (fun i => if i = 0 then AttemptOutcome.fail "boom" 5
            else AttemptOutcome.ok "hi" 3 7)
          (fun k => k == "a" || k == "b") "a" ["b"]
          (fun k => if k = "a" then some initHealth
            else if k = "b" then some initHealth else none) 0).health "a"
        = some { status := HStatus.error, lastCheck := some (0 + 5),
                 responseTime := initHealth.responseTime,
                 errorCount := initHealth.errorCount + 1 }
      ∧ (callWithFallback
          (fun i => if i = 0 then AttemptOutcome.fail "boom" 5
            else AttemptOutcome.ok "hi" 3 7)
          (fun k => k == "a" || k == "b") "a" ["b"]
          (fun k => if k = "a" then some initHealth
            else if k = "b" then some initHealth else none) 0).health "b"
        = some { status := HStatus.healthy, lastCheck := some (0 + 5 + 7),
                 responseTime := if (7 : Nat) = 0 then initHealth.responseTime else some 7,
                 errorCount := 0 }) :=
  ⟨⟨by decide, rfl, rfl, rfl, rfl, rfl, rfl, by decide, by decide⟩,
    c2_failover_short_circuit
      (fun i => if i = 0 then AttemptOutcome.fail "boom" 5
        else AttemptOutcome.ok "hi" 3 7)
      (fun k => k == "a" || k == "b") "a" "b"
      (fun k => if k = "a" then some initHealth
        else if k = "b" then some initHealth else none) 0
      "boom" "hi" 3 5 7 initHealth initHealth
      (by decide) rfl rfl rfl rfl rfl rfl (by decide) (by decide)⟩

/-- C3.  Exhaustion is converted, never thrown: when every attempted
candidate fails and the last attempt's thrown message is the
provider-call error (which, per `AIProvider.call`, begins with the
provider's display name), `callWithFallback` throws the aggregate
failure embedding that message, and the total function `callModel`
converts it into the structured record
`{text: human-readable error, usage: {total_tokens: 0}, error: true,
provider: 'none'}` instead of raising. -/
theorem c3_exhaustion_converted (env : Nat → AttemptOutcome) (registered : String → Bool)
    (primaryProvider : String) (fallbackProviders : List String)
    (m : HealthMap) (now : Nat) (k n raw : String) (d : Nat)
    (hlast : (callWithFallback env registered primaryProvider fallbackProviders
        m now).attempts.getLast?
      = some (k, AttemptOutcome.fail (providerErrorMessage n raw) d))
    (hall : ∀ a ∈ (callWithFallback env registered primaryProvider fallbackProviders
        m now).attempts, attemptFailed a = true) :
    (callWithFallback env registered primaryProvider fallbackProviders m now).result
      = Except.error ("All providers failed. Last error: " ++ providerErrorMessage n raw)
    ∧ (callModel env registered primaryProvider fallbackProviders m now).1
      = { text := "Error: " ++ ("All providers failed. Last error: "
              ++ providerErrorMessage n raw) ++ ". Please check your API configuration.",
          total_tokens := 0, error := true, provider := "none" } := by
  have hres := callWithFallbackAux_all_fail env registered
    (primaryProvider :: fallbackProviders) m now 0 none hall
  have hmsg := lastFailMsg_getLast
    (callWithFallbackAux env registered (primaryProvider :: fallbackProviders)
      m now 0 none).attempts
    none k (providerErrorMessage n raw) d hlast
  rw [hmsg] at hres
  simp only [Option.getD_some] at hres
  refine ⟨hres, ?_⟩
  simp only [callModel, callWithFallback]
  rw [hres]

/-- Witness for C3: a single registered eligible provider `"a"` whose
attempt throws the wrapped provider error. -/
theorem c3_exhaustion_witness :
    ((callWithFallback (fun _ => AttemptOutcome.fail
          (providerErrorMessage "DeepSeek" "timeout") 5)
        (fun k => k == "a") "a" []
        (fun k => if k = "a" then some initHealth else none) 0).attempts.getLast?
      = some ("a", AttemptOutcome.fail (providerErrorMessage "DeepSeek" "timeout") 5)
      ∧ (∀ a ∈ (callWithFallback (fun _ => AttemptOutcome.fail
            (providerErrorMessage "DeepSeek" "timeout") 5)
          (fun k => k == "a") "a" []
          (fun k => if k = "a" then some initHealth else none) 0).attempts,
        attemptFailed a = true))
    ∧ ((callWithFallback (fun _ => AttemptOutcome.fail
          (providerErrorMessage "DeepSeek" "timeout") 5)
        (fun k => k == "a") "a" []
        (fun k => if k = "a" then some initHealth else none) 0).result
      = Except.error ("All providers failed. Last error: "
          ++ providerErrorMessage "DeepSeek" "timeout")
      ∧ (callModel (fun _ => AttemptOutcome.fail
          (providerErrorMessage "DeepSeek" "timeout") 5)
        (fun k => k == "a") "a" []
        (fun k => if k = "a" then some initHealth else none) 0).1
      = { text := "Error: " ++ ("All providers failed. Last error: "
              ++ providerErrorMessage "DeepSeek" "timeout")
            ++ ". Please check your API configuration.",
          total_tokens := 0, error := true, provider := "none" }) :=
  ⟨⟨by decide, by decide⟩,
    c3_exhaustion_converted
      (fun _ => AttemptOutcome.fail (providerErrorMessage "DeepSeek" "timeout") 5)
      (fun k => k == "a") "a" []
      (fun k => if k = "a" then some initHealth else none) 0
      "a" "DeepSeek" "timeout" 5 (by decide) (by decide)⟩

/-- C8 counterexample.  With the duplicate configuration primary `"a"`,
fallback `["b", "a"]`, where `"a"` fails in 10 ms and `"b"`'s failing
attempt lasts 400000 ms (longer than the 5-minute staleness window),
the second occurrence of `"a"` passes the eligibility check again and is
attempted a second time within the same `callWithFallback` invocation:
the attempted keys are `["a", "b", "a"]`, so a provider IS attempted
more than once for this configuration. -/
theorem c8_duplicate_config_counterexample :
    ((callWithFallback
        (fun i => if i = 0 then AttemptOutcome.fail "e1" 10
          else if i = 1 then AttemptOutcome.fail "e2" 400000
          else AttemptOutcome.fail "e3" 1)
        (fun k => k == "a" || k == "b") "a" ["b", "a"]
        (fun k => if k = "a" then some initHealth
          else if k = "b" then some initHealth else none) 0).attempts.map Prod.fst)
      = ["a", "b", "a"]
    ∧ (((callWithFallback
        (fun i => if i = 0 then AttemptOutcome.fail "e1" 10
          else if i = 1 then AttemptOutcome.fail "e2" 400000
          else AttemptOutcome.fail "e3" 1)
        (fun k => k == "a" || k == "b") "a" ["b", "a"]
        (fun k => if k = "a" then some initHealth
          else if k = "b" then some initHealth else none) 0).attempts.map
        Prod.fst).count "a") = 2 :=
  ⟨by decide, by decide⟩

/-- C8 amended.  Provided the configured candidate list
`[primary, ...fallbacks]` contains no repeated key, no provider is
attempted more than once within a single `callWithFallback` invocation
(the attempted keys form a duplicate-free sublist of the candidates). -/
theorem c8_amended_nodup_attempts (env : Nat → AttemptOutcome)
    (registered : String → Bool) (primaryProvider : String)
    (fallbackProviders : List String) (m : HealthMap) (now : Nat)
    (hnd : (primaryProvider :: fallbackProviders).Nodup) :
    ((callWithFallback env registered primaryProvider fallbackProviders
      m now).attempts.map Prod.fst).Nodup :=
  List.Nodup.sublist
    (attempts_sublist env registered (primaryProvider :: fallbackProviders) m now 0 none)
    hnd

/-- Witness for the amended C8: duplicate-free configuration
`["a", "b"]` with both providers failing. -/
theorem c8_amended_witness :
    (("a" :: ["b"]).Nodup : Prop)
    ∧ ((callWithFallback
        (fun i => if i = 0 then AttemptOutcome.fail "e1" 10
          else AttemptOutcome.fail "e2" 20)
        (fun k => k == "a" || k == "b") "a" ["b"]
        (fun k => if k = "a" then some initHealth
          else if k = "b" then some initHealth else none) 0).attempts.map
        Prod.fst).Nodup :=
  ⟨by decide,
    c8_amended_nodup_attempts
      (fun i => if i = 0 then AttemptOutcome.fail "e1" 10
        else AttemptOutcome.fail "e2" 20)
      (fun k => k == "a" || k == "b") "a" ["b"]
      (fun k => if k = "a" then some initHealth
        else if k = "b" then some initHealth else none) 0 (by decide)⟩

end TarsVerify
